import Mathlib

/-!
Shallow embedding of the redstring analysis core: the geographic proximity
score (`backend/utils/geo.py`), the clustering similarity scorer and cluster
detector (`backend/analysis/clustering.py`), the search similarity scorer and
ranking (`backend/analysis/similarity.py`), and the dataset-size tier
classifier used by `backend/routes/clusters.py`.

Python floats are modelled by `ℚ` throughout the executable pipeline; the
transcendental haversine distance is kept abstract as a function parameter in
the pipeline (no claim depends on its values) and is modelled over `ℝ` with
real trigonometric functions where its own properties are at stake.
Python `round(x, n)` (round-half-to-even on the decimal) is modelled by
`pyRound1`/`pyRound2`.  A Python `ZeroDivisionError` is modelled by `Option`:
`none` is the raised exception.
-/

/-- Round-half-to-even to an integer, the tie rule of Python `round`. -/
def roundHalfEvenInt {K : Type} [LinearOrderedField K] [FloorRing K] (x : K) : ℤ :=
  let f := ⌊x⌋
  let frac := x - (f : K)
  if frac < 1 / 2 then f
  else if 1 / 2 < frac then f + 1
  else if f % 2 = 0 then f else f + 1

/-- Python `round(x, 1)`. -/
def pyRound1 {K : Type} [LinearOrderedField K] [FloorRing K] (x : K) : K :=
  (roundHalfEvenInt (10 * x) : K) / 10

/-- Python `round(x, 2)`. -/
def pyRound2 {K : Type} [LinearOrderedField K] [FloorRing K] (x : K) : K :=
  (roundHalfEvenInt (100 * x) : K) / 100

namespace Geo

/-- Python `math.atan2 y x`, which equals the argument of the complex number
`x + y*I`. -/
noncomputable def atan2 (y x : ℝ) : ℝ :=
  Complex.arg (Complex.ofReal x + Complex.ofReal y * Complex.I)

/-- Embedding of `haversine_distance` from `backend/utils/geo.py` (lines
11-52): great-circle distance in miles, rounded to 2 decimals. -/
noncomputable def haversine_distance (lat1 lon1 lat2 lon2 : ℝ) : ℝ :=
  let R : ℝ := 3959
  let lat1_rad := lat1 * Real.pi / 180
  let lon1_rad := lon1 * Real.pi / 180
  let lat2_rad := lat2 * Real.pi / 180
  let lon2_rad := lon2 * Real.pi / 180
  let dlat := lat2_rad - lat1_rad
  let dlon := lon2_rad - lon1_rad
  let a := Real.sin (dlat / 2) ^ 2 +
    Real.cos lat1_rad * Real.cos lat2_rad * Real.sin (dlon / 2) ^ 2
  let c := 2 * atan2 (Real.sqrt a) (Real.sqrt (1 - a))
  pyRound2 (R * c)

/-- Embedding of `calculate_geographic_score` from `backend/utils/geo.py`
(lines 55-118), generic in the numeric scalar `K` and in the distance routine
`hav` (instantiated with `haversine_distance` over `ℝ`, and kept abstract in
the rational pipeline). -/
def calculate_geographic_score {K : Type} [LinearOrderedField K] [FloorRing K]
    (hav : K → K → K → K → K)
    (case1_county_fips : Option ℤ) (case1_lat case1_lon : Option K)
    (case2_county_fips : Option ℤ) (case2_lat case2_lon : Option K)
    (max_distance_miles : K) : K :=
  if case1_county_fips ≠ none ∧ case2_county_fips ≠ none ∧
      case1_county_fips = case2_county_fips then 100
  else
    match case1_lat, case1_lon, case2_lat, case2_lon with
    | some la1, some lo1, some la2, some lo2 =>
      let distance := hav la1 lo1 la2 lo2
      if max_distance_miles ≤ distance then 0
      else pyRound1 (100 * (1 - distance / max_distance_miles))
    | _, _, _, _ => 0

/-- Embedding of `get_county_key` from `backend/utils/geo.py` (lines 121-140). -/
def get_county_key (county_fips : Option ℤ) (state : String) : String :=
  match county_fips with
  | none => state ++ ":UNKNOWN"
  | some f => state ++ ":" ++ toString f

end Geo

namespace Clustering

/-- Embedding of the `Case` dataclass from `backend/analysis/clustering.py`
(lines 23-48). -/
structure Case where
  id : String
  state : String
  county_fips_code : Option ℤ
  latitude : Option ℚ
  longitude : Option ℚ
  year : ℤ
  month : ℤ
  solved : ℤ
  weapon_code : ℤ
  weapon : String
  vic_sex_code : ℤ
  vic_sex : String
  vic_age : ℤ
  vic_race : String
  off_age : ℤ
  off_sex : String
  off_race : String
  relationship : String
  circumstance : String
deriving DecidableEq

/-- Embedding of the `SimilarityWeights` dataclass from
`backend/analysis/clustering.py` (lines 51-80). -/
structure SimilarityWeights where
  geographic : ℚ
  weapon : ℚ
  victim_sex : ℚ
  victim_age : ℚ
  temporal : ℚ
  victim_race : ℚ
deriving DecidableEq

/-- Embedding of `SimilarityWeights.total`. -/
def SimilarityWeights.total (w : SimilarityWeights) : ℚ :=
  w.geographic + w.weapon + w.victim_sex + w.victim_age + w.temporal + w.victim_race

/-- Default clustering weights (dataclass field defaults, lines 64-69). -/
def defaultWeights : SimilarityWeights :=
  ⟨35, 25, 20, 10, 7, 3⟩

/-- Embedding of the `ClusterConfig` dataclass (lines 83-97). -/
structure ClusterConfig where
  min_cluster_size : ℤ
  max_solve_rate : ℚ
  similarity_threshold : ℚ
  weights : SimilarityWeights
deriving DecidableEq

/-- Default cluster configuration (dataclass field defaults, lines 90-93). -/
def defaultConfig : ClusterConfig :=
  ⟨5, 33, 70, defaultWeights⟩

/-- Embedding of `get_weapon_category` together with the `WEAPON_CATEGORIES`
table (lines 123-149): first category (in table order) whose code list
contains the code, else `none`. -/
def get_weapon_category (weapon_code : ℤ) : Option String :=
  if weapon_code ∈ [11, 12, 13, 14, 15] then some "firearm"
  else if weapon_code ∈ [20, 21] then some "blade"
  else if weapon_code ∈ [30, 31] then some "blunt"
  else if weapon_code ∈ [40, 41] then some "personal"
  else if weapon_code ∈ [50, 60, 65, 70, 80, 90, 99] then some "other"
  else none

/-- The victim-age factor of the clustering scorer (lines 207-214): sentinel
999 short-circuits to 0.0, otherwise 5 points of penalty per year of
difference, floored at 0. -/
def victim_age_score (a b : ℤ) : ℚ :=
  if a = 999 ∨ b = 999 then 0
  else max 0 (100 - ((|a - b| : ℤ) : ℚ) * 5)

/-- Per-factor score breakdown of the clustering scorer (the `scores` dict). -/
structure FactorScores where
  geographic : ℚ
  weapon : ℚ
  victim_sex : ℚ
  victim_age : ℚ
  temporal : ℚ
  victim_race : ℚ
deriving DecidableEq

/-- Embedding of `calculate_similarity` from `backend/analysis/clustering.py`
(lines 157-238).  The division by `weights.total()` raises
`ZeroDivisionError` when the total is zero; the raise is modelled by `none`.
The haversine routine is abstracted as `hav`. -/
def calculate_similarity (hav : ℚ → ℚ → ℚ → ℚ → ℚ) (case1 case2 : Case)
    (weights : SimilarityWeights) : Option (ℚ × FactorScores) :=
  let geographic := Geo.calculate_geographic_score hav
    case1.county_fips_code case1.latitude case1.longitude
    case2.county_fips_code case2.latitude case2.longitude 50
  let weapon : ℚ :=
    if case1.weapon_code = case2.weapon_code then 100
    else if get_weapon_category case1.weapon_code = get_weapon_category case2.weapon_code
      then 70
    else 0
  let victim_sex : ℚ := if case1.vic_sex_code = case2.vic_sex_code then 100 else 0
  let victim_age := victim_age_score case1.vic_age case2.vic_age
  let temporal : ℚ := max 0 (100 - ((|case1.year - case2.year| : ℤ) : ℚ) * 10)
  let victim_race : ℚ := if case1.vic_race = case2.vic_race then 100 else 0
  let total_weight := weights.total
  if total_weight = 0 then none
  else some
    (pyRound1 ((geographic * weights.geographic + weapon * weights.weapon +
        victim_sex * weights.victim_sex + victim_age * weights.victim_age +
        temporal * weights.temporal + victim_race * weights.victim_race) /
      total_weight),
      ⟨geographic, weapon, victim_sex, victim_age, temporal, victim_race⟩)

end Clustering

namespace Similarity

/-- Embedding of the sqlite row dictionaries handled by
`backend/analysis/similarity.py` (the columns selected in
`find_similar_cases`).  Nullable columns are `Option`; `.get` on an absent or
NULL value yields `none`. -/
structure CaseDict where
  id : String
  state : Option String
  year : ℤ
  month : ℤ
  vic_age : ℤ
  vic_sex : Option String
  vic_race : Option String
  weapon : Option String
  weapon_code : Option ℤ
  relationship : Option String
  circumstance : Option String
  county_fips_code : Option ℤ
  latitude : Option ℚ
  longitude : Option ℚ
  solved : ℤ
deriving DecidableEq

/-- Embedding of the search `SimilarityWeights` dataclass from
`backend/analysis/similarity.py` (lines 23-55). -/
structure SimilarityWeights where
  weapon : ℚ
  geographic : ℚ
  victim_age : ℚ
  temporal : ℚ
  victim_race : ℚ
  circumstance : ℚ
  relationship : ℚ
deriving DecidableEq

/-- Embedding of search `SimilarityWeights.total` (lines 45-55). -/
def SimilarityWeights.total (w : SimilarityWeights) : ℚ :=
  w.weapon + w.geographic + w.victim_age + w.temporal + w.victim_race +
    w.circumstance + w.relationship

/-- Default search weights (dataclass field defaults, lines 37-43). -/
def defaultWeights : SimilarityWeights :=
  ⟨30 / 100, 25 / 100, 20 / 100, 15 / 100, 5 / 100, 3 / 100, 2 / 100⟩

/-- Embedding of the `SimilarityConfig` dataclass (lines 68-77). -/
structure SimilarityConfig where
  weights : SimilarityWeights
  radius_miles : ℚ
  age_range : ℤ
  year_range : ℤ
  min_score : ℚ
  limit : ℕ
deriving DecidableEq

/-- SimilarityConfig as built by `find_similar_cases` (line 311): defaults for
everything except `min_score` and `limit`. -/
def mkConfig (min_score : ℚ) (limit : ℕ) : SimilarityConfig :=
  ⟨defaultWeights, 100, 10, 5, min_score, limit⟩

/-- Embedding of `same_weapon_category` (lines 112-151): true when both codes
are present and fall in the same category set. -/
def same_weapon_category (code1 code2 : Option ℤ) : Bool :=
  match code1, code2 with
  | some c1, some c2 =>
    (c1 ∈ [11, 12, 13, 14, 15] ∧ c2 ∈ [11, 12, 13, 14, 15]) ∨
    (c1 = 20 ∧ c2 = 20) ∨
    (c1 = 30 ∧ c2 = 30) ∨
    (c1 = 40 ∧ c2 = 40) ∨
    (c1 ∈ [80, 85] ∧ c2 ∈ [80, 85]) ∨
    (c1 = 60 ∧ c2 = 60) ∨
    (c1 = 70 ∧ c2 = 70) ∨
    (c1 = 65 ∧ c2 = 65) ∨
    (c1 = 75 ∧ c2 = 75) ∨
    (c1 = 90 ∧ c2 = 90) ∨
    (c1 ∈ [50, 55] ∧ c2 ∈ [50, 55])
  | _, _ => false

/-- Python truthiness of an optional float: `None` and `0.0` are falsy. -/
def truthyCoord (o : Option ℚ) : Prop :=
  o ≠ none ∧ o ≠ some 0

instance (o : Option ℚ) : Decidable (truthyCoord o) := by
  unfold truthyCoord; infer_instance

/-- Python truthiness of an optional string: `None` and the empty string are
falsy. -/
def truthyStr (o : Option String) : Prop :=
  o ≠ none ∧ o ≠ some ""

instance (o : Option String) : Decidable (truthyStr o) := by
  unfold truthyStr; infer_instance

/-- The victim-age factor of the search scorer (lines 217-231): sentinel 999
short-circuits to the neutral 50.0, a difference within `age_range` scores
100.0, beyond it 5 points of penalty per extra year, floored at 0. -/
def victim_age_score (age_range : ℤ) (a b : ℤ) : ℚ :=
  if a = 999 ∨ b = 999 then 50
  else if |a - b| ≤ age_range then 100
  else max 0 (100 - ((|a - b| - age_range : ℤ) : ℚ) * 5)

/-- Per-factor score breakdown of the search scorer (`factor_scores`). -/
structure FactorScores where
  weapon : ℚ
  geographic : ℚ
  victim_age : ℚ
  temporal : ℚ
  victim_race : ℚ
  circumstance : ℚ
  relationship : ℚ
deriving DecidableEq

/-- The geographic factor of the search scorer (lines 191-215): the haversine
branch runs only when all four coordinates are truthy (present and nonzero);
otherwise the county / state fallback applies. -/
def geographic_score (hav : ℚ → ℚ → ℚ → ℚ → ℚ) (reference_case candidate_case : CaseDict)
    (config : SimilarityConfig) : ℚ :=
  if truthyCoord reference_case.latitude ∧ truthyCoord reference_case.longitude ∧
      truthyCoord candidate_case.latitude ∧ truthyCoord candidate_case.longitude then
    let distance := hav (reference_case.latitude.getD 0) (reference_case.longitude.getD 0)
      (candidate_case.latitude.getD 0) (candidate_case.longitude.getD 0)
    if distance ≤ config.radius_miles then
      max 0 (100 - distance / config.radius_miles * 50)
    else 0
  else
    if reference_case.county_fips_code = candidate_case.county_fips_code then 100
    else if reference_case.state = candidate_case.state then 30
    else 0

/-- Embedding of `calculate_similarity` from `backend/analysis/similarity.py`
(lines 159-282).  Note that, unlike the clustering scorer, the weighted sum is
not divided by `weights.total()`; the function is total and always returns a
numeric score. -/
def calculate_similarity (hav : ℚ → ℚ → ℚ → ℚ → ℚ)
    (reference_case candidate_case : CaseDict) (config : SimilarityConfig) :
    ℚ × FactorScores :=
  let weights := config.weights
  let weapon : ℚ :=
    if reference_case.weapon = candidate_case.weapon then 100
    else if same_weapon_category reference_case.weapon_code candidate_case.weapon_code
      then 70
    else 0
  let geographic := geographic_score hav reference_case candidate_case config
  let victim_age := victim_age_score config.age_range
    reference_case.vic_age candidate_case.vic_age
  let temporal : ℚ :=
    let year_diff := |reference_case.year - candidate_case.year|
    if year_diff ≤ config.year_range then 100
    else max 0 (100 - ((year_diff - config.year_range : ℤ) : ℚ) * 10)
  let victim_race : ℚ :=
    if reference_case.vic_race = candidate_case.vic_race then 100 else 0
  let circumstance : ℚ :=
    if truthyStr reference_case.circumstance ∧ truthyStr candidate_case.circumstance then
      if reference_case.circumstance = candidate_case.circumstance then 100 else 0
    else 50
  let relationship : ℚ :=
    if truthyStr reference_case.relationship ∧ truthyStr candidate_case.relationship then
      if reference_case.relationship = candidate_case.relationship then 100 else 0
    else 50
  (weapon * weights.weapon + geographic * weights.geographic +
      victim_age * weights.victim_age + temporal * weights.temporal +
      victim_race * weights.victim_race + circumstance * weights.circumstance +
      relationship * weights.relationship,
    ⟨weapon, geographic, victim_age, temporal, victim_race, circumstance, relationship⟩)

end Similarity

namespace Similarity

/-- Embedding of the `SimilarCase` dataclass (lines 58-65). -/
structure SimilarCase where
  case_id : String
  similarity_score : ℚ
  matching_factors : FactorScores
  case_data : CaseDict
deriving DecidableEq

/-- Per-factor rounding applied when a `SimilarCase` is built (line 363). -/
def round_factors (f : FactorScores) : FactorScores :=
  ⟨pyRound1 f.weapon, pyRound1 f.geographic, pyRound1 f.victim_age,
    pyRound1 f.temporal, pyRound1 f.victim_race, pyRound1 f.circumstance,
    pyRound1 f.relationship⟩

/-- The `SimilarCase` record appended for a retained candidate (lines
359-366). -/
def mkSimilarCase (hav : ℚ → ℚ → ℚ → ℚ → ℚ) (config : SimilarityConfig)
    (ref_case candidate : CaseDict) : SimilarCase :=
  let sf := calculate_similarity hav ref_case candidate config
  ⟨candidate.id, pyRound1 sf.1, round_factors sf.2, candidate⟩

/-- The accumulation loop of `find_similar_cases` (lines 352-366): candidates
scoring below `min_score` are dropped, the rest become `SimilarCase` records
in candidate order. -/
def collect_similar (hav : ℚ → ℚ → ℚ → ℚ → ℚ) (config : SimilarityConfig)
    (ref_case : CaseDict) (candidates : List CaseDict) : List SimilarCase :=
  (candidates.filter
      (fun c => config.min_score ≤ (calculate_similarity hav ref_case c config).1)).map
    (mkSimilarCase hav config ref_case)

/-- Comparator of the ranking sort (line 369): descending `similarity_score`;
Python `list.sort(key, reverse=True)` is a stable sort under this relation. -/
def rankLE (a b : SimilarCase) : Bool :=
  decide (b.similarity_score ≤ a.similarity_score)

/-- The ranking sort of `find_similar_cases` (line 369). -/
def rank_similar (hav : ℚ → ℚ → ℚ → ℚ → ℚ) (config : SimilarityConfig)
    (ref_case : CaseDict) (candidates : List CaseDict) : List SimilarCase :=
  (collect_similar hav config ref_case candidates).mergeSort rankLE

/-- Embedding of the pure part of `find_similar_cases` (lines 290-377): the
reference row and the pre-restricted candidate pool stand in for the two
database queries; scoring, filtering, stable descending sort, and truncation
to `limit` follow the source. -/
def find_similar_cases (hav : ℚ → ℚ → ℚ → ℚ → ℚ) (ref_case : CaseDict)
    (candidates : List CaseDict) (limit : ℕ) (min_score : ℚ) : List SimilarCase :=
  let config := mkConfig min_score limit
  (rank_similar hav config ref_case candidates).take limit

end Similarity

namespace Clustering

/-- County grouping map (`county_groups`, a `defaultdict` in insertion
order): append to an existing bucket, else add a new key at the end. -/
def upsertGroup (groups : List (String × List Case)) (key : String) (c : Case) :
    List (String × List Case) :=
  match groups with
  | [] => [(key, [c])]
  | (k, cs) :: rest =>
    if k = key then (k, cs ++ [c]) :: rest else (k, cs) :: upsertGroup rest key c

/-- Grouping loop of `detect_clusters` (lines 276-279). -/
def groupByCounty (cases : List Case) : List (String × List Case) :=
  cases.foldl
    (fun g c => upsertGroup g (Geo.get_county_key c.county_fips_code c.state) c) []

/-- All index pairs `i < j` of the double loop (lines 294-297), in loop
order. -/
def orderedPairs : List Case → List (Case × Case)
  | [] => []
  | c :: cs => cs.map (fun d => (c, d)) ++ orderedPairs cs

/-- The `similar_pairs` accumulation (lines 292-302): score each pair, keep
those at or above the threshold; a scoring error (zero weight total) aborts
the whole run, as the Python exception would. -/
def similar_pairs (hav : ℚ → ℚ → ℚ → ℚ → ℚ) (weights : SimilarityWeights)
    (threshold : ℚ) : List (Case × Case) → Option (List (Case × Case × ℚ))
  | [] => some []
  | (a, b) :: rest =>
    match calculate_similarity hav a b weights with
    | none => none
    | some (s, _) =>
      match similar_pairs hav weights threshold rest with
      | none => none
      | some tail => some (if threshold ≤ s then (a, b, s) :: tail else tail)

/-- Adjacency lists keyed by case id (`adjacency`, a `defaultdict` in
insertion order). -/
def Adj : Type := List (String × List (String × ℚ))

/-- Append one directed entry to the adjacency map. -/
def upsertAdj (adj : Adj) (k : String) (v : String × ℚ) : Adj :=
  match adj with
  | [] => [(k, [v])]
  | (k2, vs) :: rest =>
    if k2 = k then (k2, vs ++ [v]) :: rest else (k2, vs) :: upsertAdj rest k v

/-- Adjacency construction (lines 309-312): both directions per similar
pair. -/
def build_adjacency (ps : List (Case × Case × ℚ)) : Adj :=
  ps.foldl
    (fun adj p =>
      upsertAdj (upsertAdj adj p.1.id (p.2.1.id, p.2.2)) p.2.1.id (p.1.id, p.2.2))
    []

/-- Lookup in the adjacency map; a missing key yields `[]` (the `defaultdict`
default). -/
def lookupAdj (adj : Adj) (k : String) : List (String × ℚ) :=
  match List.find? (fun p => p.1 = k) adj with
  | some p => p.2
  | none => []

/-- Filtering by a stronger membership exclusion never keeps more elements. -/
theorem length_filter_notMem_cons_le (l : List String) (a : String) (vis : List String) :
    (l.filter (fun k => decide (k ∉ a :: vis))).length ≤
      (l.filter (fun k => decide (k ∉ vis))).length := by
  apply List.Sublist.length_le
  apply List.monotone_filter_right
  intro x hx
  simp only [decide_eq_true_eq] at hx ⊢
  exact fun h => hx (List.mem_cons_of_mem a h)

/-- Excluding a further element that is present and not yet excluded strictly
shrinks the filtered list. -/
theorem length_filter_notMem_cons_lt (l : List String) (a : String) (vis : List String)
    (ha : a ∈ l) (hv : a ∉ vis) :
    (l.filter (fun k => decide (k ∉ a :: vis))).length <
      (l.filter (fun k => decide (k ∉ vis))).length := by
  induction l with
  | nil => cases ha
  | cons b t ih =>
    by_cases hb : b = a
    · subst hb
      have h1 : ¬ (b ∉ b :: vis) := fun h => h (List.mem_cons_self b vis)
      simp only [List.filter_cons, decide_eq_false h1, decide_eq_true hv,
        Bool.false_eq_true, if_false, if_true, List.length_cons]
      exact Nat.lt_succ_of_le (length_filter_notMem_cons_le t b vis)
    · have hat : a ∈ t := (List.mem_cons.mp ha).resolve_left (fun h => hb h.symm)
      by_cases hbv : b ∈ vis
      · have h1 : ¬ (b ∉ a :: vis) := fun h => h (List.mem_cons_of_mem a hbv)
        have h2 : ¬ (b ∉ vis) := fun h => h hbv
        simp only [List.filter_cons, decide_eq_false h1, decide_eq_false h2,
          Bool.false_eq_true, if_false]
        exact ih hat
      · have h1 : (b ∉ a :: vis) := fun h => (List.mem_cons.mp h).elim hb hbv
        simp only [List.filter_cons, decide_eq_true h1, decide_eq_true hbv,
          if_true, List.length_cons]
        exact Nat.succ_lt_succ (ih hat)

/-- A key absent from the adjacency map looks up to the empty list. -/
theorem lookupAdj_eq_nil_of_notMem (adj : Adj) (k : String)
    (h : k ∉ List.map Prod.fst adj) : lookupAdj adj k = [] := by
  unfold lookupAdj
  have hfind : List.find? (fun p => decide (p.1 = k)) adj = none := by
    apply List.find?_eq_none.mpr
    intro p hp
    simp only [decide_eq_true_eq]
    intro hpk
    exact h (hpk ▸ List.mem_map_of_mem Prod.fst hp)
  rw [hfind]

/-- Embedding of the stack-based DFS of `detect_clusters` (lines 326-340).
The Python list used as a stack pushes and pops at the end; the head of the
Lean list is that end.  Neighbors are pushed (and their edge similarities
recorded) when not yet visited at push time; termination is by the
lexicographic measure (unvisited adjacency keys, stack length). -/
def dfsLoop (adj : Adj) (visited : List String) (stack : List String)
    (cluster_case_ids : List String) (cluster_similarities : List ℚ) :
    List String × List String × List ℚ :=
  match stack with
  | [] => (visited, cluster_case_ids, cluster_similarities)
  | current :: rest =>
    if hcur : current ∈ visited then
      dfsLoop adj visited rest cluster_case_ids cluster_similarities
    else
      let visited2 := current :: visited
      let pushes := (lookupAdj adj current).filter (fun p => decide (p.1 ∉ visited2))
      dfsLoop adj visited2 ((pushes.map Prod.fst).reverse ++ rest)
        (cluster_case_ids ++ [current]) (cluster_similarities ++ pushes.map Prod.snd)
termination_by
  (((List.map Prod.fst adj).filter (fun k => decide (k ∉ visited))).length, stack.length)
decreasing_by
  · exact Prod.Lex.right _ (Nat.lt_succ_self rest.length)
  · by_cases hk : current ∈ List.map Prod.fst adj
    · exact Prod.Lex.left _ _
        (length_filter_notMem_cons_lt (List.map Prod.fst adj) current visited hk hcur)
    · have hnil : lookupAdj adj current = [] := lookupAdj_eq_nil_of_notMem adj current hk
      have hfilter :
          (List.map Prod.fst adj).filter (fun k => decide (k ∉ current :: visited)) =
            (List.map Prod.fst adj).filter (fun k => decide (k ∉ visited)) := by
        apply List.filter_congr
        intro x hx
        have hxc : x ≠ current := fun h => hk (h ▸ hx)
        by_cases hxv : x ∈ visited
        · simp [hxv]
        · simp [List.mem_cons, hxv, hxc]
      rw [hnil]
      simp only [List.filter_nil, List.map_nil, List.reverse_nil, List.nil_append]
      rw [hfilter]
      exact Prod.Lex.right _ (Nat.lt_succ_self rest.length)

/-- A placeholder `Case`; the `case_by_id` lookup never misses on inputs
reachable from `detect_clusters`, where every adjacency id is the id of a
group member. -/
def defaultCase : Case :=
  ⟨"", "", none, none, none, 0, 0, 0, 0, "", 0, "", 0, "", 0, "", "", "", ""⟩

/-- Embedding of the `case_by_id` dict (line 316): comprehension order makes
the last case with a given id win. -/
def case_by_id (cases : List Case) (cid : String) : Case :=
  match List.find? (fun c => c.id = cid) cases.reverse with
  | some c => c
  | none => defaultCase

/-- Ordered label counting (`defaultdict(int)` in insertion order). -/
def bumpCount (counts : List (String × ℕ)) (k : String) : List (String × ℕ) :=
  match counts with
  | [] => [(k, 1)]
  | (k2, n) :: rest =>
    if k2 = k then (k2, n + 1) :: rest else (k2, n) :: bumpCount rest k

/-- Counts of each label in first-occurrence order. -/
def labelCounts (labels : List String) : List (String × ℕ) :=
  labels.foldl bumpCount []

/-- Python `max(items, key=lambda x: x[1])[0]`: the first key attaining the
maximal count (`max` keeps the earliest maximum). -/
def firstMaxLabel (items : List (String × ℕ)) : String :=
  match items with
  | [] => ""
  | (k, n) :: rest =>
    (rest.foldl (fun best p => if best.2 < p.2 then p else best) (k, n)).1

/-- Embedding of the `ClusterResult` dataclass (lines 100-116). -/
structure ClusterResult where
  cluster_id : String
  location_description : String
  cases : List Case
  total_cases : ℕ
  solved_cases : ℕ
  unsolved_cases : ℕ
  solve_rate : ℚ
  avg_similarity_score : ℚ
  first_year : ℤ
  last_year : ℤ
  primary_weapon : String
  primary_victim_sex : String
  avg_victim_age : ℚ
deriving DecidableEq

/-- Embedding of `_build_cluster_result` (lines 362-427).  The millisecond
reading `int(time.time() * 1000)` is supplied as the `timestamp` argument;
the caller passes the value its clock produced at that point. -/
def _build_cluster_result (county_key : String) (cases : List Case)
    (similarities : List ℚ) (timestamp : ℕ) : ClusterResult :=
  let cluster_id := county_key.replace ":" "_" ++ "_" ++ Nat.repr timestamp
  let total_cases := cases.length
  let solved_cases := (cases.filter (fun c => decide (c.solved = 1))).length
  let unsolved_cases := total_cases - solved_cases
  let solve_rate : ℚ :=
    if 0 < total_cases then pyRound1 ((solved_cases : ℚ) / (total_cases : ℚ) * 100) else 0
  let avg_similarity : ℚ :=
    if similarities ≠ [] then
      pyRound1 (similarities.sum / (similarities.length : ℚ))
    else 0
  let years := cases.map (fun c => c.year)
  let first_year : ℤ := match years with | [] => 0 | y :: ys => ys.foldl min y
  let last_year : ℤ := match years with | [] => 0 | y :: ys => ys.foldl max y
  let primary_weapon := firstMaxLabel (labelCounts (cases.map (fun c => c.weapon)))
  let primary_victim_sex := firstMaxLabel (labelCounts (cases.map (fun c => c.vic_sex)))
  let valid_ages := (cases.filter (fun c => decide (c.vic_age ≠ 999))).map (fun c => c.vic_age)
  let avg_victim_age : ℚ :=
    if valid_ages ≠ [] then
      pyRound1 (((valid_ages.sum : ℤ) : ℚ) / (valid_ages.length : ℚ))
    else 0
  let state := (county_key.splitOn ":").getD 0 ""
  let location_description := state ++ " - County " ++ (county_key.splitOn ":").getD 1 ""
  ⟨cluster_id, location_description, cases, total_cases, solved_cases, unsolved_cases,
    solve_rate, avg_similarity, first_year, last_year, primary_weapon,
    primary_victim_sex, avg_victim_age⟩

/-- Embedding of the component loop `for case_id in adjacency` (lines
319-351): DFS from each unvisited key, build a cluster when the component is
large enough, keep it when its solve rate passes; the visited set and the
clock (one reading per built cluster, counted by `counter`) thread through. -/
def clustersInCounty (adj : Adj) (gcases : List Case) (config : ClusterConfig)
    (county_key : String) (clock : ℕ → ℕ) :
    List (String × List (String × ℚ)) → List String → ℕ → ℕ × List ClusterResult
  | [], _, counter => (counter, [])
  | (case_id, _) :: restAdj, visited, counter =>
    if case_id ∈ visited then
      clustersInCounty adj gcases config county_key clock restAdj visited counter
    else
      match dfsLoop adj visited [case_id] [] [] with
      | (visited2, cluster_case_ids, cluster_similarities) =>
        if config.min_cluster_size ≤ (cluster_case_ids.length : ℤ) then
          let cluster := _build_cluster_result county_key
            (cluster_case_ids.map (case_by_id gcases)) cluster_similarities (clock counter)
          match clustersInCounty adj gcases config county_key clock restAdj visited2
              (counter + 1) with
          | (counter2, restClusters) =>
            (counter2,
              (if cluster.solve_rate ≤ config.max_solve_rate then [cluster] else []) ++
                restClusters)
        else
          clustersInCounty adj gcases config county_key clock restAdj visited2 counter

/-- Embedding of the county-group loop of `detect_clusters` (lines 286-353),
accumulating `all_clusters` in group order and threading the clock counter. -/
def processGroups (hav : ℚ → ℚ → ℚ → ℚ → ℚ) (clock : ℕ → ℕ) (config : ClusterConfig) :
    List (String × List Case) → ℕ → Option (ℕ × List ClusterResult)
  | [], counter => some (counter, [])
  | (county_key, gcases) :: rest, counter =>
    if (gcases.length : ℤ) < config.min_cluster_size then
      processGroups hav clock config rest counter
    else
      match similar_pairs hav config.weights config.similarity_threshold
          (orderedPairs gcases) with
      | none => none
      | some ps =>
        if ps = [] then processGroups hav clock config rest counter
        else
          let adj := build_adjacency ps
          match clustersInCounty adj gcases config county_key clock adj [] counter with
          | (counter2, clusters) =>
            match processGroups hav clock config rest counter2 with
            | none => none
            | some (counter3, restClusters) => some (counter3, clusters ++ restClusters)

/-- The `all_clusters` list of `detect_clusters` before the final sort, in
discovery order; `none` models the `ZeroDivisionError` escaping the call. -/
def detect_clusters_raw (hav : ℚ → ℚ → ℚ → ℚ → ℚ) (clock : ℕ → ℕ)
    (cases : List Case) (config : ClusterConfig) : Option (List ClusterResult) :=
  (processGroups hav clock config (groupByCounty cases) 0).map (fun p => p.2)

/-- Comparator of the final sort (line 356): descending unsolved count;
Python `list.sort(key, reverse=True)` is a stable sort under this relation. -/
def clusterLE (a b : ClusterResult) : Bool :=
  decide (b.unsolved_cases ≤ a.unsolved_cases)

/-- Embedding of `detect_clusters` (lines 246-359). -/
def detect_clusters (hav : ℚ → ℚ → ℚ → ℚ → ℚ) (clock : ℕ → ℕ)
    (cases : List Case) (config : ClusterConfig) : Option (List ClusterResult) :=
  (detect_clusters_raw hav clock cases config).map (fun l => l.mergeSort clusterLE)

end Clustering

namespace ClusterService

/-- Modelled from the spec: `classify_dataset_tier` is imported by
`backend/routes/clusters.py` from `services.cluster_service`, but its
definition (and the `TIER_1_THRESHOLD`/`TIER_2_THRESHOLD` constants of
`models.cluster`) is not part of the source slice.  Spec section 4.4: fewer
than 10,000 cases is Tier 1, from 10,000 up to but excluding 50,000 is
Tier 2, and 50,000 or more is Tier 3. -/
def classify_dataset_tier (case_count : ℕ) : ℕ :=
  if case_count < 10000 then 1
  else if case_count < 50000 then 2
  else 3

end ClusterService

/-- Claim C4: for every non-negative case count `n`, the dataset-size
classifier returns Tier 1 when `n < 10000`, Tier 2 when
`10000 ≤ n < 50000`, and Tier 3 when `n ≥ 50000`; in particular
`classify 9999 = 1`, `classify 10000 = 2`, `classify 49999 = 2`, and
`classify 50000 = 3`. -/
theorem claim4_dataset_tier_classification (n : ℕ) :
    (n < 10000 → ClusterService.classify_dataset_tier n = 1) ∧
    (10000 ≤ n → n < 50000 → ClusterService.classify_dataset_tier n = 2) ∧
    (50000 ≤ n → ClusterService.classify_dataset_tier n = 3) ∧
    ClusterService.classify_dataset_tier 9999 = 1 ∧
    ClusterService.classify_dataset_tier 10000 = 2 ∧
    ClusterService.classify_dataset_tier 49999 = 2 ∧
    ClusterService.classify_dataset_tier 50000 = 3 := by
  unfold ClusterService.classify_dataset_tier
  refine ⟨fun h => by simp [h], fun h1 h2 => ?_, fun h => ?_, by norm_num, by norm_num,
    by norm_num, by norm_num⟩
  · rw [if_neg (by omega), if_pos h2]
  · rw [if_neg (by omega), if_neg (by omega)]

/-- Witness for claim C4 at `n = 12345`. -/
theorem claim4_dataset_tier_classification_witness :
    (10000 ≤ 12345 ∧ 12345 < 50000) ∧ ClusterService.classify_dataset_tier 12345 = 2 :=
  ⟨by decide, (claim4_dataset_tier_classification 12345).2.1 (by decide) (by decide)⟩

/-- Claim C3: two cases with equal present county FIPS codes, equal weapon
code, equal victim-sex code, victim ages 25 and 30, years 1990 and 1991, and
equal victim race score geographic=100, weapon=100, victim_sex=100,
victim_age=75.0, temporal=90.0, victim_race=100 under the default clustering
weights, with total score 96.8. -/
theorem claim3_default_weights_scenario (hav : ℚ → ℚ → ℚ → ℚ → ℚ)
    (c1 c2 : Clustering.Case)
    (hfips : c1.county_fips_code ≠ none)
    (hfeq : c1.county_fips_code = c2.county_fips_code)
    (hw : c1.weapon_code = c2.weapon_code)
    (hs : c1.vic_sex_code = c2.vic_sex_code)
    (ha1 : c1.vic_age = 25) (ha2 : c2.vic_age = 30)
    (hy1 : c1.year = 1990) (hy2 : c2.year = 1991)
    (hr : c1.vic_race = c2.vic_race) :
    Clustering.calculate_similarity hav c1 c2 Clustering.defaultWeights =
      some (484 / 5, ⟨100, 100, 100, 75, 90, 100⟩) := by
  have hgeo : Geo.calculate_geographic_score hav
      c1.county_fips_code c1.latitude c1.longitude
      c2.county_fips_code c2.latitude c2.longitude 50 = 100 := by
    unfold Geo.calculate_geographic_score
    rw [if_pos ⟨hfips, hfeq ▸ hfips, hfeq⟩]
  unfold Clustering.calculate_similarity
  rw [hgeo, hw, hs, hr, ha1, ha2, hy1, hy2]
  norm_num [Clustering.victim_age_score, Clustering.defaultWeights,
    Clustering.SimilarityWeights.total, pyRound1, roundHalfEvenInt]

/-- Sample case: Cook County 1990, handgun, female victim aged 25. -/
def sampleCaseA : Clustering.Case :=
  ⟨"A1", "ILLINOIS", some 17031, none, none, 1990, 1, 0, 12,
    "Handgun", 1, "Female", 25, "White", 0, "", "", "", ""⟩

/-- Sample case: Cook County 1991, handgun, female victim aged 30. -/
def sampleCaseB : Clustering.Case :=
  ⟨"B1", "ILLINOIS", some 17031, none, none, 1991, 1, 0, 12,
    "Handgun", 1, "Female", 30, "White", 0, "", "", "", ""⟩

/-- Witness for claim C3 on two concrete Cook County cases. -/
theorem claim3_default_weights_scenario_witness :
    Clustering.calculate_similarity (fun _ _ _ _ => 0) sampleCaseA sampleCaseB
      Clustering.defaultWeights = some (484 / 5, ⟨100, 100, 100, 75, 90, 100⟩) :=
  claim3_default_weights_scenario (fun _ _ _ _ => 0) sampleCaseA sampleCaseB
    (by decide) (by decide) (by decide) (by decide) (by decide) (by decide)
    (by decide) (by decide) (by decide)

/-- Sample search-scorer row: the reference case. -/
def sampleDictA : Similarity.CaseDict :=
  ⟨"r1", some "ILLINOIS", 1990, 1, 25, some "Female", some "White",
    some "Handgun", some 12, some "Wife", some "Argument", some 17031,
    none, none, 0⟩

/-- Sample search-scorer row: a candidate case. -/
def sampleDictB : Similarity.CaseDict :=
  ⟨"c1", some "ILLINOIS", 1991, 2, 30, some "Female", some "White",
    some "Handgun", some 12, some "Wife", some "Argument", some 17031,
    none, none, 0⟩

/-- All-zero search weights: their `total()` is 0. -/
def zeroSearchWeights : Similarity.SimilarityWeights :=
  ⟨0, 0, 0, 0, 0, 0, 0⟩

/-- A search configuration carrying the all-zero weights (other fields at the
dataclass defaults). -/
def zeroSearchConfig : Similarity.SimilarityConfig :=
  ⟨zeroSearchWeights, 100, 10, 5, 30, 50⟩

/-- Counterexample to claim C1: with all-zero factor weights (whose `total()`
is 0) the search scorer does not raise or return any error — it returns the
numeric score 0.0 together with a full per-factor breakdown. -/
theorem claim1_counterexample :
    Similarity.SimilarityWeights.total zeroSearchWeights = 0 ∧
    Similarity.calculate_similarity (fun _ _ _ _ => 0) sampleDictA sampleDictB
      zeroSearchConfig = (0, ⟨100, 100, 100, 100, 100, 100, 100⟩) := by
  constructor
  · norm_num [zeroSearchWeights, Similarity.SimilarityWeights.total]
  · norm_num [Similarity.calculate_similarity, Similarity.geographic_score,
      Similarity.victim_age_score, Similarity.same_weapon_category,
      Similarity.truthyCoord, Similarity.truthyStr, sampleDictA, sampleDictB,
      zeroSearchConfig, zeroSearchWeights, Prod.ext_iff]
    refine ⟨⟨?_, ?_⟩, ?_, ?_⟩ <;> decide

/-- Claim C1 as amended: for any clustering factor weights with `total() = 0`
the clustering scorer raises `ZeroDivisionError` (modelled `none`) and never
returns a numeric score, while the search scorer — which never divides by the
weight total — returns the numeric score 0 for all-zero weights instead of an
error. -/
theorem claim1_amended_zero_weight_behaviour :
    (∀ (hav : ℚ → ℚ → ℚ → ℚ → ℚ) (c1 c2 : Clustering.Case)
        (w : Clustering.SimilarityWeights), w.total = 0 →
      Clustering.calculate_similarity hav c1 c2 w = none) ∧
    (∀ (hav : ℚ → ℚ → ℚ → ℚ → ℚ) (ref cand : Similarity.CaseDict)
        (cfg : Similarity.SimilarityConfig), cfg.weights = zeroSearchWeights →
      (Similarity.calculate_similarity hav ref cand cfg).1 = 0) := by
  constructor
  · intro hav c1 c2 w hw
    simp [Clustering.calculate_similarity, hw]
  · intro hav ref cand cfg hz
    simp [Similarity.calculate_similarity, hz, zeroSearchWeights]

/-- Witness for the amended claim C1 at concrete cases and configurations. -/
theorem claim1_amended_zero_weight_behaviour_witness :
    Clustering.calculate_similarity (fun _ _ _ _ => 0) sampleCaseA sampleCaseB
        ⟨0, 0, 0, 0, 0, 0⟩ = none ∧
    (Similarity.calculate_similarity (fun _ _ _ _ => 0) sampleDictA sampleDictB
        zeroSearchConfig).1 = 0 :=
  ⟨claim1_amended_zero_weight_behaviour.1 (fun _ _ _ _ => 0) sampleCaseA sampleCaseB
      ⟨0, 0, 0, 0, 0, 0⟩ (by norm_num [Clustering.SimilarityWeights.total]),
    claim1_amended_zero_weight_behaviour.2 (fun _ _ _ _ => 0) sampleDictA sampleDictB
      zeroSearchConfig rfl⟩

/-- Claim C7: in both scorers the victim-age factor is monotonically
non-increasing in the absolute age difference over non-sentinel ages, the
sentinel 999 short-circuits to the branch constant (0 for clustering, the
neutral 50 for search) without entering the arithmetic difference, and the
factor emitted by each scorer is exactly this function of the two ages. -/
theorem claim7_victim_age_monotone_and_sentinel :
    (∀ a1 b1 a2 b2 : ℤ, a1 ≠ 999 → b1 ≠ 999 → a2 ≠ 999 → b2 ≠ 999 →
        |a1 - b1| ≤ |a2 - b2| →
      Clustering.victim_age_score a2 b2 ≤ Clustering.victim_age_score a1 b1) ∧
    (∀ r a1 b1 a2 b2 : ℤ, a1 ≠ 999 → b1 ≠ 999 → a2 ≠ 999 → b2 ≠ 999 →
        |a1 - b1| ≤ |a2 - b2| →
      Similarity.victim_age_score r a2 b2 ≤ Similarity.victim_age_score r a1 b1) ∧
    (∀ a b : ℤ, a = 999 ∨ b = 999 → Clustering.victim_age_score a b = 0) ∧
    (∀ r a b : ℤ, a = 999 ∨ b = 999 → Similarity.victim_age_score r a b = 50) ∧
    (∀ hav c1 c2 w,
      (Clustering.calculate_similarity hav c1 c2 w).map (fun p => p.2.victim_age) =
        (Clustering.calculate_similarity hav c1 c2 w).map
          (fun _ => Clustering.victim_age_score c1.vic_age c2.vic_age)) ∧
    (∀ hav ref cand cfg,
      (Similarity.calculate_similarity hav ref cand cfg).2.victim_age =
        Similarity.victim_age_score cfg.age_range ref.vic_age cand.vic_age) := by
  refine ⟨?_, ?_, ?_, ?_, ?_, ?_⟩
  · intro a1 b1 a2 b2 ha1 hb1 ha2 hb2 h
    have hn1 : ¬ (a1 = 999 ∨ b1 = 999) := by tauto
    have hn2 : ¬ (a2 = 999 ∨ b2 = 999) := by tauto
    unfold Clustering.victim_age_score
    rw [if_neg hn2, if_neg hn1]
    have hc : ((|a1 - b1| : ℤ) : ℚ) ≤ ((|a2 - b2| : ℤ) : ℚ) := by exact_mod_cast h
    apply max_le_max le_rfl
    linarith
  · intro r a1 b1 a2 b2 ha1 hb1 ha2 hb2 h
    have hn1 : ¬ (a1 = 999 ∨ b1 = 999) := by tauto
    have hn2 : ¬ (a2 = 999 ∨ b2 = 999) := by tauto
    unfold Similarity.victim_age_score
    rw [if_neg hn2, if_neg hn1]
    have hc : ((|a1 - b1| : ℤ) : ℚ) ≤ ((|a2 - b2| : ℤ) : ℚ) := by exact_mod_cast h
    by_cases h2 : |a2 - b2| ≤ r
    · rw [if_pos h2, if_pos (le_trans h h2)]
    · rw [if_neg h2]
      by_cases h1 : |a1 - b1| ≤ r
      · rw [if_pos h1]
        have hnn : (0 : ℚ) ≤ ((|a2 - b2| - r : ℤ) : ℚ) := by
          exact_mod_cast Int.sub_nonneg.mpr (le_of_lt (not_le.mp h2))
        apply max_le (by norm_num)
        linarith
      · rw [if_neg h1]
        apply max_le_max le_rfl
        have hd : ((|a1 - b1| - r : ℤ) : ℚ) ≤ ((|a2 - b2| - r : ℤ) : ℚ) := by
          exact_mod_cast sub_le_sub_right h r
        linarith
  · intro a b h
    unfold Clustering.victim_age_score
    rw [if_pos h]
  · intro r a b h
    unfold Similarity.victim_age_score
    rw [if_pos h]
  · intro hav c1 c2 w
    unfold Clustering.calculate_similarity
    by_cases hw : w.total = 0 <;> simp [hw]
  · intro hav ref cand cfg
    rfl

/-- Witness for claim C7 at concrete ages 25/30 versus 25/40 and sentinel
pairs. -/
theorem claim7_victim_age_monotone_and_sentinel_witness :
    Clustering.victim_age_score 25 40 ≤ Clustering.victim_age_score 25 30 ∧
    Similarity.victim_age_score 10 25 40 ≤ Similarity.victim_age_score 10 25 30 ∧
    Clustering.victim_age_score 999 30 = 0 ∧
    Similarity.victim_age_score 10 25 999 = 50 :=
  ⟨claim7_victim_age_monotone_and_sentinel.1 25 30 25 40
      (by decide) (by decide) (by decide) (by decide) (by decide),
    claim7_victim_age_monotone_and_sentinel.2.1 10 25 30 25 40
      (by decide) (by decide) (by decide) (by decide) (by decide),
    claim7_victim_age_monotone_and_sentinel.2.2.1 999 30 (Or.inl rfl),
    claim7_victim_age_monotone_and_sentinel.2.2.2.1 10 25 999 (Or.inr rfl)⟩

/-- Squared sine of a halved difference is symmetric in the two endpoints. -/
theorem sin_half_sub_sq_symm (x y : ℝ) :
    Real.sin ((x - y) / 2) ^ 2 = Real.sin ((y - x) / 2) ^ 2 := by
  rw [show (x - y) / 2 = -((y - x) / 2) by ring, Real.sin_neg]
  ring

/-- The haversine distance is symmetric in its two points. -/
theorem haversine_distance_symm (la1 lo1 la2 lo2 : ℝ) :
    Geo.haversine_distance la1 lo1 la2 lo2 = Geo.haversine_distance la2 lo2 la1 lo1 := by
  simp only [Geo.haversine_distance]
  congr 2
  rw [sin_half_sub_sq_symm (la2 * Real.pi / 180) (la1 * Real.pi / 180),
    sin_half_sub_sq_symm (lo2 * Real.pi / 180) (lo1 * Real.pi / 180),
    mul_comm (Real.cos (la1 * Real.pi / 180)) (Real.cos (la2 * Real.pi / 180))]

/-- Claim C8: the geographic proximity score with the real haversine distance
is symmetric in its two cases, for all county identifiers, optional real
coordinates and cutoff distances. -/
theorem claim8_geographic_score_symmetric (f1 f2 : Option ℤ)
    (la1 lo1 la2 lo2 : Option ℝ) (maxd : ℝ) :
    Geo.calculate_geographic_score Geo.haversine_distance f1 la1 lo1 f2 la2 lo2 maxd =
      Geo.calculate_geographic_score Geo.haversine_distance f2 la2 lo2 f1 la1 lo1 maxd := by
  unfold Geo.calculate_geographic_score
  by_cases hc : f1 ≠ none ∧ f2 ≠ none ∧ f1 = f2
  · rw [if_pos hc, if_pos ⟨hc.2.1, hc.1, hc.2.2.symm⟩]
  · have hc2 : ¬ (f2 ≠ none ∧ f1 ≠ none ∧ f2 = f1) := by tauto
    rw [if_neg hc, if_neg hc2]
    rcases la1 with _ | a <;> rcases lo1 with _ | b <;>
      rcases la2 with _ | c <;> rcases lo2 with _ | d <;> try rfl
    show (if maxd ≤ Geo.haversine_distance a b c d then (0 : ℝ)
        else pyRound1 (100 * (1 - Geo.haversine_distance a b c d / maxd))) =
      (if maxd ≤ Geo.haversine_distance c d a b then (0 : ℝ)
        else pyRound1 (100 * (1 - Geo.haversine_distance c d a b / maxd)))
    rw [haversine_distance_symm a b c d]

namespace Similarity

/-- Python falsiness of an optional coordinate: absent, or exactly 0 (a case
on the equator or prime meridian). -/
def falsyCoord (o : Option ℚ) : Prop :=
  o = none ∨ o = some 0

end Similarity

/-- Claim C10: when any of the four coordinates is absent or equals 0, the
search scorer skips the haversine branch (the geographic factor does not
depend on the distance routine) and scores geography by the fallback: 100
for equal county FIPS codes (including both absent), 30 for equal states
with unequal counties, 0 otherwise. -/
theorem claim10_search_geographic_fallback (hav1 hav2 : ℚ → ℚ → ℚ → ℚ → ℚ)
    (ref cand : Similarity.CaseDict) (cfg : Similarity.SimilarityConfig)
    (h : Similarity.falsyCoord ref.latitude ∨ Similarity.falsyCoord ref.longitude ∨
      Similarity.falsyCoord cand.latitude ∨ Similarity.falsyCoord cand.longitude) :
    (Similarity.calculate_similarity hav1 ref cand cfg).2.geographic =
      (if ref.county_fips_code = cand.county_fips_code then 100
        else if ref.state = cand.state then 30 else 0) ∧
    (Similarity.calculate_similarity hav1 ref cand cfg).2.geographic =
      (Similarity.calculate_similarity hav2 ref cand cfg).2.geographic := by
  have hred : ∀ hav : ℚ → ℚ → ℚ → ℚ → ℚ,
      (Similarity.calculate_similarity hav ref cand cfg).2.geographic =
        Similarity.geographic_score hav ref cand cfg := fun _ => rfl
  have hnt : ¬ (Similarity.truthyCoord ref.latitude ∧
      Similarity.truthyCoord ref.longitude ∧ Similarity.truthyCoord cand.latitude ∧
      Similarity.truthyCoord cand.longitude) := by
    unfold Similarity.falsyCoord at h
    unfold Similarity.truthyCoord
    rcases h with h | h | h | h <;> rcases h with h | h <;> tauto
  have hfall : ∀ hav : ℚ → ℚ → ℚ → ℚ → ℚ,
      Similarity.geographic_score hav ref cand cfg =
        (if ref.county_fips_code = cand.county_fips_code then 100
          else if ref.state = cand.state then 30 else 0) := by
    intro hav
    unfold Similarity.geographic_score
    rw [if_neg hnt]
  exact ⟨(hred hav1).trans (hfall hav1),
    ((hred hav1).trans (hfall hav1)).trans (((hred hav2).trans (hfall hav2)).symm)⟩

/-- Witness for claim C10: the sample rows have no coordinates, share a
county, and get geographic factor 100 under any two distance routines. -/
theorem claim10_search_geographic_fallback_witness :
    (Similarity.falsyCoord sampleDictA.latitude ∨
      Similarity.falsyCoord sampleDictA.longitude ∨
      Similarity.falsyCoord sampleDictB.latitude ∨
      Similarity.falsyCoord sampleDictB.longitude) ∧
    (Similarity.calculate_similarity (fun _ _ _ _ => 0) sampleDictA sampleDictB
        (Similarity.mkConfig 30 50)).2.geographic =
      (if sampleDictA.county_fips_code = sampleDictB.county_fips_code then 100
        else if sampleDictA.state = sampleDictB.state then 30 else 0) :=
  ⟨Or.inl (Or.inl rfl),
    (claim10_search_geographic_fallback (fun _ _ _ _ => 0) (fun _ _ _ _ => 1)
      sampleDictA sampleDictB (Similarity.mkConfig 30 50) (Or.inl (Or.inl rfl))).1⟩

/-- The ranking comparator is transitive. -/
theorem rankLE_trans (a b c : Similarity.SimilarCase) :
    Similarity.rankLE a b = true → Similarity.rankLE b c = true →
      Similarity.rankLE a c = true := by
  unfold Similarity.rankLE
  simp only [decide_eq_true_eq]
  intro h1 h2
  exact le_trans h2 h1

/-- The ranking comparator is total. -/
theorem rankLE_total (a b : Similarity.SimilarCase) :
    (Similarity.rankLE a b || Similarity.rankLE b a) = true := by
  unfold Similarity.rankLE
  rcases le_total a.similarity_score b.similarity_score with h | h <;> simp [h]

/-- Claim C5: the similarity search keeps exactly the candidates whose raw
score reaches `min_score` (dropped before ranking, not sorted last), sorts
them by descending (rounded) score with ties preserving candidate order, and
truncates the ranked list to at most `limit` entries. -/
theorem claim5_find_similar_ranking (hav : ℚ → ℚ → ℚ → ℚ → ℚ)
    (ref : Similarity.CaseDict) (pool : List Similarity.CaseDict)
    (limit : ℕ) (min_score : ℚ) :
    (∀ s ∈ Similarity.find_similar_cases hav ref pool limit min_score,
      s ∈ Similarity.collect_similar hav (Similarity.mkConfig min_score limit) ref pool) ∧
    (Similarity.rank_similar hav (Similarity.mkConfig min_score limit) ref pool).Perm
      (Similarity.collect_similar hav (Similarity.mkConfig min_score limit) ref pool) ∧
    (∀ c ∈ pool,
      min_score ≤
          (Similarity.calculate_similarity hav ref c (Similarity.mkConfig min_score limit)).1 →
      Similarity.mkSimilarCase hav (Similarity.mkConfig min_score limit) ref c ∈
        Similarity.rank_similar hav (Similarity.mkConfig min_score limit) ref pool) ∧
    (∀ s ∈ Similarity.collect_similar hav (Similarity.mkConfig min_score limit) ref pool,
      ∃ c, c ∈ pool ∧
        min_score ≤
          (Similarity.calculate_similarity hav ref c (Similarity.mkConfig min_score limit)).1 ∧
        s = Similarity.mkSimilarCase hav (Similarity.mkConfig min_score limit) ref c) ∧
    (Similarity.find_similar_cases hav ref pool limit min_score).length ≤ limit ∧
    (Similarity.find_similar_cases hav ref pool limit min_score).Pairwise
      (fun a b => b.similarity_score ≤ a.similarity_score) ∧
    (∀ a b : Similarity.SimilarCase, a.similarity_score = b.similarity_score →
      [a, b].Sublist
        (Similarity.collect_similar hav (Similarity.mkConfig min_score limit) ref pool) →
      [a, b].Sublist
        (Similarity.rank_similar hav (Similarity.mkConfig min_score limit) ref pool)) := by
  refine ⟨?_, ?_, ?_, ?_, ?_, ?_, ?_⟩
  · intro s hs
    have h1 : s ∈ Similarity.rank_similar hav (Similarity.mkConfig min_score limit) ref pool :=
      (List.take_sublist limit _).mem hs
    exact List.mem_mergeSort.mp h1
  · exact List.mergeSort_perm _ _
  · intro c hc hsc
    apply List.mem_mergeSort.mpr
    apply List.mem_map_of_mem
    apply List.mem_filter.mpr
    exact ⟨hc, decide_eq_true hsc⟩
  · intro s hs
    obtain ⟨c, hcf, hmk⟩ := List.mem_map.mp hs
    obtain ⟨hcp, hsc⟩ := List.mem_filter.mp hcf
    exact ⟨c, hcp, of_decide_eq_true hsc, hmk.symm⟩
  · exact List.length_take_le limit _
  · apply List.Pairwise.sublist (List.take_sublist limit _)
    have hs := List.sorted_mergeSort rankLE_trans rankLE_total
      (Similarity.collect_similar hav (Similarity.mkConfig min_score limit) ref pool)
    exact hs.imp (fun h => of_decide_eq_true h)
  · intro a b hab hsub
    exact List.pair_sublist_mergeSort rankLE_trans rankLE_total
      (decide_eq_true (le_of_eq hab.symm)) hsub

/-- Witness for claim C5: with a one-candidate pool, the candidate scores 100
under the defaults, passes the threshold 30, and appears in the ranked
list. -/
theorem claim5_find_similar_ranking_witness :
    (30 : ℚ) ≤ (Similarity.calculate_similarity (fun _ _ _ _ => 0) sampleDictA
        sampleDictB (Similarity.mkConfig 30 5)).1 ∧
    Similarity.mkSimilarCase (fun _ _ _ _ => 0) (Similarity.mkConfig 30 5)
        sampleDictA sampleDictB ∈
      Similarity.rank_similar (fun _ _ _ _ => 0) (Similarity.mkConfig 30 5)
        sampleDictA [sampleDictB] := by
  have hscore : (30 : ℚ) ≤ (Similarity.calculate_similarity (fun _ _ _ _ => 0)
      sampleDictA sampleDictB (Similarity.mkConfig 30 5)).1 := by
    norm_num [Similarity.calculate_similarity, Similarity.geographic_score,
      Similarity.victim_age_score, Similarity.same_weapon_category,
      Similarity.truthyCoord, Similarity.truthyStr, sampleDictA, sampleDictB,
      Similarity.mkConfig, Similarity.defaultWeights]
    split_ifs <;> norm_num
  exact ⟨hscore,
    (claim5_find_similar_ranking (fun _ _ _ _ => 0) sampleDictA [sampleDictB] 5 30).2.2.1
      sampleDictB (List.mem_singleton.mpr rfl) hscore⟩

/-- A built cluster reports exactly its member count. -/
theorem build_cluster_total_cases (key : String) (cs : List Clustering.Case)
    (sims : List ℚ) (ts : ℕ) :
    (Clustering._build_cluster_result key cs sims ts).total_cases = cs.length := rfl

/-- Every cluster emitted by the per-county component loop satisfies the size
and solve-rate thresholds. -/
theorem clustersInCounty_mem_invariant (adj : Clustering.Adj)
    (gcases : List Clustering.Case) (cfg : Clustering.ClusterConfig) (key : String)
    (clock : ℕ → ℕ) (adjIter : List (String × List (String × ℚ))) :
    ∀ (visited : List String) (counter : ℕ) (cl : Clustering.ClusterResult),
      cl ∈ (Clustering.clustersInCounty adj gcases cfg key clock adjIter visited counter).2 →
      cfg.min_cluster_size ≤ (cl.total_cases : ℤ) ∧ cl.solve_rate ≤ cfg.max_solve_rate := by
  induction adjIter with
  | nil =>
    intro visited counter cl hcl
    simp [Clustering.clustersInCounty] at hcl
  | cons p rest ih =>
    intro visited counter cl hcl
    obtain ⟨case_id, nbrs⟩ := p
    rw [Clustering.clustersInCounty] at hcl
    by_cases hv : case_id ∈ visited
    · rw [if_pos hv] at hcl
      exact ih visited counter cl hcl
    · rw [if_neg hv] at hcl
      rcases hdfs : Clustering.dfsLoop adj visited [case_id] [] [] with ⟨v2, ids, sims⟩
      rw [hdfs] at hcl
      dsimp only at hcl
      by_cases hsize : cfg.min_cluster_size ≤ (ids.length : ℤ)
      · rw [if_pos hsize] at hcl
        rcases hrec : Clustering.clustersInCounty adj gcases cfg key clock rest v2
            (counter + 1) with ⟨c2, restC⟩
        rw [hrec] at hcl
        simp only [List.mem_append] at hcl
        rcases hcl with hcl | hcl
        · by_cases hrate :
              (Clustering._build_cluster_result key (ids.map (Clustering.case_by_id gcases))
                sims (clock counter)).solve_rate ≤ cfg.max_solve_rate
          · rw [if_pos hrate] at hcl
            rcases List.mem_singleton.mp hcl with rfl
            refine ⟨?_, hrate⟩
            rw [build_cluster_total_cases, List.length_map]
            exact hsize
          · rw [if_neg hrate] at hcl
            cases hcl
        · have := ih v2 (counter + 1) cl
          rw [hrec] at this
          exact this hcl
      · rw [if_neg hsize] at hcl
        exact ih v2 counter cl hcl

/-- Every cluster accumulated across county groups satisfies the size and
solve-rate thresholds. -/
theorem processGroups_mem_invariant (hav : ℚ → ℚ → ℚ → ℚ → ℚ) (clock : ℕ → ℕ)
    (cfg : Clustering.ClusterConfig) (groups : List (String × List Clustering.Case)) :
    ∀ (counter : ℕ) (res : ℕ × List Clustering.ClusterResult),
      Clustering.processGroups hav clock cfg groups counter = some res →
      ∀ cl ∈ res.2,
        cfg.min_cluster_size ≤ (cl.total_cases : ℤ) ∧ cl.solve_rate ≤ cfg.max_solve_rate := by
  induction groups with
  | nil =>
    intro counter res h cl hcl
    rw [Clustering.processGroups] at h
    injection h with h2
    subst h2
    cases hcl
  | cons g rest ih =>
    intro counter res h cl hcl
    obtain ⟨key, gcases⟩ := g
    rw [Clustering.processGroups] at h
    by_cases hskip : (gcases.length : ℤ) < cfg.min_cluster_size
    · rw [if_pos hskip] at h
      exact ih counter res h cl hcl
    · rw [if_neg hskip] at h
      rcases hsp : Clustering.similar_pairs hav cfg.weights cfg.similarity_threshold
          (Clustering.orderedPairs gcases) with _ | ps
      · rw [hsp] at h
        cases h
      · rw [hsp] at h
        dsimp only at h
        by_cases hps : ps = []
        · rw [if_pos hps] at h
          exact ih counter res h cl hcl
        · rw [if_neg hps] at h
          rcases hcic : Clustering.clustersInCounty (Clustering.build_adjacency ps) gcases
              cfg key clock (Clustering.build_adjacency ps) [] counter with ⟨c2, clusters⟩
          rw [hcic] at h
          dsimp only at h
          rcases hrec : Clustering.processGroups hav clock cfg rest c2 with _ | pr
          · rw [hrec] at h
            cases h
          · rw [hrec] at h
            rcases pr with ⟨c3, restC⟩
            dsimp only at h
            injection h with h2
            subst h2
            simp only [List.mem_append] at hcl
            rcases hcl with hcl | hcl
            · have hinv := clustersInCounty_mem_invariant (Clustering.build_adjacency ps)
                gcases cfg key clock (Clustering.build_adjacency ps) [] counter cl
              rw [hcic] at hinv
              exact hinv hcl
            · exact ih c2 (c3, restC) hrec cl hcl

/-- Claim C2: every cluster returned by `detect_clusters` has at least
`min_cluster_size` cases and a solve rate at most `max_solve_rate`. -/
theorem claim2_cluster_thresholds (hav : ℚ → ℚ → ℚ → ℚ → ℚ) (clock : ℕ → ℕ)
    (cases : List Clustering.Case) (cfg : Clustering.ClusterConfig)
    (res : List Clustering.ClusterResult)
    (h : Clustering.detect_clusters hav clock cases cfg = some res) :
    ∀ cl ∈ res,
      cfg.min_cluster_size ≤ (cl.total_cases : ℤ) ∧ cl.solve_rate ≤ cfg.max_solve_rate := by
  intro cl hcl
  unfold Clustering.detect_clusters Clustering.detect_clusters_raw at h
  rcases hpg : Clustering.processGroups hav clock cfg (Clustering.groupByCounty cases) 0
      with _ | pr
  · rw [hpg] at h
    cases h
  · rw [hpg] at h
    simp only [Option.map] at h
    injection h with h2
    subst h2
    exact processGroups_mem_invariant hav clock cfg _ 0 pr hpg cl
      (List.mem_mergeSort.mp hcl)


/-- Configuration for a concrete two-case run: minimum size 2, otherwise the
defaults. -/
def witnessConfig : Clustering.ClusterConfig := ⟨2, 33, 70, Clustering.defaultWeights⟩

/-- County key of the two sample cases. -/
def witnessKey : String := Geo.get_county_key (some 17031) "ILLINOIS"

/-- Factor breakdown of the two sample cases under default weights. -/
def witnessFactors : Clustering.FactorScores := ⟨100, 100, 100, 75, 90, 100⟩

/-- Concrete run, scoring stage: the two sample cases score 96.8. -/
theorem pair_run_similarity :
    Clustering.calculate_similarity (fun _ _ _ _ => 0) sampleCaseA sampleCaseB
      Clustering.defaultWeights = some (484 / 5, witnessFactors) := by
  have hgeo : Geo.calculate_geographic_score (fun _ _ _ _ => (0 : ℚ))
      sampleCaseA.county_fips_code sampleCaseA.latitude sampleCaseA.longitude
      sampleCaseB.county_fips_code sampleCaseB.latitude sampleCaseB.longitude 50 = 100 := by
    unfold Geo.calculate_geographic_score
    rw [if_pos ⟨by decide, by decide, by decide⟩]
  unfold Clustering.calculate_similarity
  rw [hgeo]
  norm_num [Clustering.victim_age_score, Clustering.defaultWeights,
    Clustering.SimilarityWeights.total, pyRound1, roundHalfEvenInt, sampleCaseA,
    sampleCaseB, witnessFactors]

/-- Concrete run, pair-filter stage: the single pair passes the threshold. -/
theorem pair_run_similar_pairs :
    Clustering.similar_pairs (fun _ _ _ _ => 0) Clustering.defaultWeights 70
      (Clustering.orderedPairs [sampleCaseA, sampleCaseB]) =
      some [(sampleCaseA, sampleCaseB, 484 / 5)] := by
  have hop : Clustering.orderedPairs [sampleCaseA, sampleCaseB] =
      [(sampleCaseA, sampleCaseB)] := rfl
  rw [hop]
  simp only [Clustering.similar_pairs, pair_run_similarity]
  rw [if_pos (by norm_num : (70 : ℚ) ≤ 484 / 5)]

/-- Concrete run, adjacency stage. -/
theorem pair_run_adjacency :
    Clustering.build_adjacency [(sampleCaseA, sampleCaseB, 484 / 5)] =
      [("A1", [("B1", 484 / 5)]), ("B1", [("A1", 484 / 5)])] := by
  simp [Clustering.build_adjacency, Clustering.upsertAdj, sampleCaseA, sampleCaseB]

/-- Concrete run, DFS stage: one component containing both cases. -/
theorem pair_run_dfs :
    Clustering.dfsLoop [("A1", [("B1", 484 / 5)]), ("B1", [("A1", 484 / 5)])] []
      ["A1"] [] [] = (["B1", "A1"], ["A1", "B1"], [484 / 5]) := by
  simp [Clustering.dfsLoop, Clustering.lookupAdj, List.find?, List.filter]

/-- The cluster produced by the concrete two-case run. -/
def witnessCluster : Clustering.ClusterResult :=
  ⟨witnessKey.replace ":" "_" ++ "_" ++ Nat.repr 0,
    (witnessKey.splitOn ":").getD 0 "" ++ " - County " ++
      (witnessKey.splitOn ":").getD 1 "",
    [sampleCaseA, sampleCaseB], 2, 0, 2, 0, 484 / 5, 1990, 1991, "Handgun", "Female",
    55 / 2⟩

/-- Concrete run, statistics stage. -/
theorem pair_run_build :
    Clustering._build_cluster_result witnessKey [sampleCaseA, sampleCaseB]
      [484 / 5] 0 = witnessCluster := by
  have h1 : pyRound1 (0 : ℚ) = 0 := by
    norm_num [pyRound1, roundHalfEvenInt]
  have h2 : pyRound1 ((484 : ℚ) / 5) = 484 / 5 := by
    norm_num [pyRound1, roundHalfEvenInt, Int.fract]
  have h3 : pyRound1 ((55 : ℚ) / 2) = 55 / 2 := by
    norm_num [pyRound1, roundHalfEvenInt, Int.fract]
  simp [Clustering._build_cluster_result, Clustering.labelCounts, Clustering.bumpCount,
    Clustering.firstMaxLabel, sampleCaseA, sampleCaseB, witnessCluster]
  exact ⟨h1, h2, h3⟩

/-- Concrete run, component-loop stage: exactly one cluster survives. -/
theorem pair_run_components :
    Clustering.clustersInCounty [("A1", [("B1", 484 / 5)]), ("B1", [("A1", 484 / 5)])]
      [sampleCaseA, sampleCaseB] witnessConfig witnessKey (fun _ => 0)
      [("A1", [("B1", 484 / 5)]), ("B1", [("A1", 484 / 5)])] [] 0 =
      (1, [witnessCluster]) := by
  rw [Clustering.clustersInCounty]
  rw [if_neg (List.not_mem_nil "A1")]
  rw [pair_run_dfs]
  dsimp only
  rw [if_pos (show witnessConfig.min_cluster_size ≤
    (((["A1", "B1"] : List String).length : ℕ) : ℤ) by norm_num [witnessConfig])]
  have hmap : List.map (Clustering.case_by_id [sampleCaseA, sampleCaseB]) ["A1", "B1"] =
      [sampleCaseA, sampleCaseB] := by
    simp [Clustering.case_by_id, List.find?, sampleCaseA, sampleCaseB]
  rw [hmap, pair_run_build]
  rw [if_pos (show witnessCluster.solve_rate ≤ witnessConfig.max_solve_rate by
    norm_num [witnessCluster, witnessConfig])]
  rw [Clustering.clustersInCounty]
  rw [if_pos (show "B1" ∈ ["B1", "A1"] by simp)]
  rw [Clustering.clustersInCounty]
  simp

/-- Concrete end-to-end run: two similar unsolved same-county cases and
minimum size 2 produce exactly one cluster with the expected contents. -/
theorem detect_clusters_pair_run :
    Clustering.detect_clusters (fun _ _ _ _ => 0) (fun _ => 0)
      [sampleCaseA, sampleCaseB] witnessConfig = some [witnessCluster] := by
  have hgrp : Clustering.groupByCounty [sampleCaseA, sampleCaseB] =
      [(witnessKey, [sampleCaseA, sampleCaseB])] := by
    simp [Clustering.groupByCounty, Clustering.upsertGroup, sampleCaseA, sampleCaseB,
      witnessKey]
  unfold Clustering.detect_clusters Clustering.detect_clusters_raw
  rw [hgrp]
  rw [Clustering.processGroups]
  rw [show witnessConfig.weights = Clustering.defaultWeights from rfl,
    show witnessConfig.similarity_threshold = (70 : ℚ) from rfl]
  rw [if_neg (show ¬ ((([sampleCaseA, sampleCaseB] : List Clustering.Case).length : ℤ) <
    witnessConfig.min_cluster_size) by norm_num [witnessConfig])]
  rw [pair_run_similar_pairs]
  dsimp only
  rw [if_neg (show ¬ ([(sampleCaseA, sampleCaseB, (484 : ℚ) / 5)] = []) by simp)]
  rw [pair_run_adjacency]
  rw [pair_run_components]
  dsimp only
  rw [Clustering.processGroups]
  simp [List.mergeSort]

/-- Witness for claim C2: the concrete two-case run returns one cluster, and
that cluster meets both thresholds. -/
theorem claim2_cluster_thresholds_witness :
    Clustering.detect_clusters (fun _ _ _ _ => 0) (fun _ => 0)
        [sampleCaseA, sampleCaseB] witnessConfig = some [witnessCluster] ∧
    witnessConfig.min_cluster_size ≤ (witnessCluster.total_cases : ℤ) ∧
    witnessCluster.solve_rate ≤ witnessConfig.max_solve_rate :=
  ⟨detect_clusters_pair_run,
    claim2_cluster_thresholds (fun _ _ _ _ => 0) (fun _ => 0)
      [sampleCaseA, sampleCaseB] witnessConfig [witnessCluster]
      detect_clusters_pair_run witnessCluster (List.mem_singleton.mpr rfl)⟩

/-- The cluster comparator is transitive. -/
theorem clusterLE_trans (a b c : Clustering.ClusterResult) :
    Clustering.clusterLE a b = true → Clustering.clusterLE b c = true →
      Clustering.clusterLE a c = true := by
  unfold Clustering.clusterLE
  simp only [decide_eq_true_eq]
  intro h1 h2
  exact le_trans h2 h1

/-- The cluster comparator is total. -/
theorem clusterLE_total (a b : Clustering.ClusterResult) :
    (Clustering.clusterLE a b || Clustering.clusterLE b a) = true := by
  unfold Clustering.clusterLE
  rcases le_total a.unsolved_cases b.unsolved_cases with h | h <;> simp [h]

/-- Claim C6: the cluster list returned by `detect_clusters` is sorted by
descending unsolved-case count, and clusters with equal unsolved counts keep
their discovery order (the pre-sort `all_clusters` order). -/
theorem claim6_clusters_sorted_by_unsolved (hav : ℚ → ℚ → ℚ → ℚ → ℚ) (clock : ℕ → ℕ)
    (cases : List Clustering.Case) (cfg : Clustering.ClusterConfig)
    (res : List Clustering.ClusterResult)
    (h : Clustering.detect_clusters hav clock cases cfg = some res) :
    res.Pairwise (fun a b => b.unsolved_cases ≤ a.unsolved_cases) ∧
    (∀ raw, Clustering.detect_clusters_raw hav clock cases cfg = some raw →
      ∀ a b : Clustering.ClusterResult, a.unsolved_cases = b.unsolved_cases →
        [a, b].Sublist raw → [a, b].Sublist res) := by
  unfold Clustering.detect_clusters at h
  rcases hraw : Clustering.detect_clusters_raw hav clock cases cfg with _ | l
  · rw [hraw] at h
    cases h
  · rw [hraw] at h
    simp only [Option.map] at h
    injection h with h2
    subst h2
    constructor
    · exact (List.sorted_mergeSort clusterLE_trans clusterLE_total l).imp
        (fun hab => of_decide_eq_true hab)
    · intro raw hraw2 a b hab hsub
      injection hraw2 with h3
      subst h3
      exact List.pair_sublist_mergeSort clusterLE_trans clusterLE_total
        (decide_eq_true (le_of_eq hab.symm)) hsub

/-- Witness for claim C6 on the concrete two-case run. -/
theorem claim6_clusters_sorted_by_unsolved_witness :
    ([witnessCluster] : List Clustering.ClusterResult).Pairwise
      (fun a b => b.unsolved_cases ≤ a.unsolved_cases) :=
  (claim6_clusters_sorted_by_unsolved (fun _ _ _ _ => 0) (fun _ => 0)
    [sampleCaseA, sampleCaseB] witnessConfig [witnessCluster]
    detect_clusters_pair_run).1

/-- Counterexample to claim C9: two different clusters (distinct member
lists) built from the same geographic key in the same millisecond receive the
same identifier — identifiers are not distinct across invocations. -/
theorem claim9_counterexample :
    (Clustering._build_cluster_result "ILLINOIS:17031" [sampleCaseA] []
        1700000000000).cluster_id =
      (Clustering._build_cluster_result "ILLINOIS:17031" [sampleCaseB] []
        1700000000000).cluster_id ∧
    (Clustering._build_cluster_result "ILLINOIS:17031" [sampleCaseA] []
        1700000000000).cases ≠
      (Clustering._build_cluster_result "ILLINOIS:17031" [sampleCaseB] []
        1700000000000).cases := by
  constructor
  · rfl
  · intro h
    have h2 : [sampleCaseA] = [sampleCaseB] := h
    have h3 := congrArg (fun l => (l.headD Clustering.defaultCase).id) h2
    exact absurd h3 (by decide)

/-- Claim C9 as amended: each cluster identifier is the geographic key with
colons replaced by underscores, an underscore, and the decimal generation
timestamp; clusters sharing key and millisecond timestamp receive identical
identifiers regardless of their contents (so uniqueness is not guaranteed),
while identifiers from the same key differ whenever the decimal timestamps
differ. -/
theorem claim9_amended_cluster_id_characterization :
    (∀ (key : String) (cs : List Clustering.Case) (sims : List ℚ) (ts : ℕ),
      (Clustering._build_cluster_result key cs sims ts).cluster_id =
        key.replace ":" "_" ++ "_" ++ Nat.repr ts) ∧
    (∀ (key : String) (cs1 : List Clustering.Case) (sims1 : List ℚ)
        (cs2 : List Clustering.Case) (sims2 : List ℚ) (ts : ℕ),
      (Clustering._build_cluster_result key cs1 sims1 ts).cluster_id =
        (Clustering._build_cluster_result key cs2 sims2 ts).cluster_id) ∧
    (∀ (key : String) (cs1 : List Clustering.Case) (sims1 : List ℚ) (ts1 : ℕ)
        (cs2 : List Clustering.Case) (sims2 : List ℚ) (ts2 : ℕ),
      Nat.repr ts1 ≠ Nat.repr ts2 →
      (Clustering._build_cluster_result key cs1 sims1 ts1).cluster_id ≠
        (Clustering._build_cluster_result key cs2 sims2 ts2).cluster_id) := by
  refine ⟨fun key cs sims ts => rfl, fun key cs1 sims1 cs2 sims2 ts => rfl, ?_⟩
  intro key cs1 sims1 ts1 cs2 sims2 ts2 hne heq
  have e1 : (Clustering._build_cluster_result key cs1 sims1 ts1).cluster_id =
      key.replace ":" "_" ++ "_" ++ Nat.repr ts1 := rfl
  have e2 : (Clustering._build_cluster_result key cs2 sims2 ts2).cluster_id =
      key.replace ":" "_" ++ "_" ++ Nat.repr ts2 := rfl
  rw [e1, e2] at heq
  apply hne
  have hd := congrArg String.data heq
  simp only [String.data_append, List.append_assoc] at hd
  exact String.ext (List.append_cancel_left (List.append_cancel_left hd))

/-- Witness for the amended claim C9: concrete identifiers match the
characterization and differ across distinct millisecond timestamps. -/
theorem claim9_amended_cluster_id_characterization_witness :
    (Clustering._build_cluster_result "ILLINOIS:17031" [sampleCaseA] [] 5).cluster_id =
      "ILLINOIS:17031".replace ":" "_" ++ "_" ++ Nat.repr 5 ∧
    (Clustering._build_cluster_result "ILLINOIS:17031" [sampleCaseA] [] 5).cluster_id ≠
      (Clustering._build_cluster_result "ILLINOIS:17031" [sampleCaseB] [] 6).cluster_id :=
  ⟨claim9_amended_cluster_id_characterization.1 "ILLINOIS:17031" [sampleCaseA] [] 5,
    claim9_amended_cluster_id_characterization.2.2 "ILLINOIS:17031" [sampleCaseA] [] 5
      [sampleCaseB] [] 6 (by decide)⟩
